import Mathlib

/-
Verification development for the survey data finder (src/main.py).

The Python source is shallowly embedded: pure string manipulation is
translated character by character on `List Char`; remote interaction is
modelled by explicit environment values describing the responses the
program would receive; Python truthiness of the values involved
(None, empty strings, empty containers, the integer 0) is modelled
explicitly.  Unicode-dependent primitives (str.lower, NFD, str.isdigit,
the regex classes) are modelled on the fragment of the character set
that the development exercises: ASCII plus the Spanish accented letters
and the combining marks they decompose into, plus the superscript
digits; the behaviour on that fragment follows the Python semantics.
-/

/-! ### Character-level fragment of the Python string primitives -/

/-- Whitespace recognised by the modelled fragment of Python's
str.strip / str.isspace and of the regex class for whitespace
(the ASCII whitespace characters). -/
def pyIsSpace (c : Char) : Bool :=
  c = ' ' || c = '\t' || c = '\n' || c = '\r' || c = '\x0b' || c = '\x0c'

/-- Embedding of Python str.strip (whitespace from both ends). -/
def stripChars (cs : List Char) : List Char :=
  ((cs.dropWhile pyIsSpace).reverse.dropWhile pyIsSpace).reverse

/-- Embedding of Python str.strip on strings. -/
def pyStripStr (s : String) : String :=
  String.mk (stripChars s.toList)

/-- Lower-casing table: modelled fragment of Python str.lower
(ASCII upper-case letters plus the accented capitals that occur in
Spanish survey titles). -/
def lowerPairs : List (Char × Char) :=
  [('A', 'a'), ('B', 'b'), ('C', 'c'), ('D', 'd'), ('E', 'e'), ('F', 'f'),
   ('G', 'g'), ('H', 'h'), ('I', 'i'), ('J', 'j'), ('K', 'k'), ('L', 'l'),
   ('M', 'm'), ('N', 'n'), ('O', 'o'), ('P', 'p'), ('Q', 'q'), ('R', 'r'),
   ('S', 's'), ('T', 't'), ('U', 'u'), ('V', 'v'), ('W', 'w'), ('X', 'x'),
   ('Y', 'y'), ('Z', 'z'),
   ('Á', 'á'), ('É', 'é'), ('Í', 'í'), ('Ó', 'ó'), ('Ú', 'ú'),
   ('Ñ', 'ñ'), ('Ü', 'ü')]

/-- Embedding of Python str.lower on one character (modelled fragment). -/
def pyLowerChar (c : Char) : Char :=
  ((lowerPairs.find? (fun p => p.1 == c)).map (fun p => p.2)).getD c

/-- Canonical decomposition table: modelled fragment of
unicodedata.normalize with NFD (the lower-case accented letters that
str.lower can produce, decomposed into base letter plus combining mark). -/
def nfdPairs : List (Char × List Char) :=
  [('á', ['a', '́']), ('é', ['e', '́']), ('í', ['i', '́']),
   ('ó', ['o', '́']), ('ú', ['u', '́']),
   ('ñ', ['n', '̃']), ('ü', ['u', '̈'])]

/-- Embedding of NFD decomposition on one character (modelled fragment);
characters outside the table decompose to themselves. -/
def nfdChar (c : Char) : List Char :=
  ((nfdPairs.find? (fun p => p.1 == c)).map (fun p => p.2)).getD [c]

/-- ASCII letters and digits. -/
def asciiAlnum (c : Char) : Bool :=
  ('a' ≤ c && c ≤ 'z') || ('A' ≤ c && c ≤ 'Z') || ('0' ≤ c && c ≤ '9')

/-- Accented lower-case letters of the modelled fragment (these are word
characters for the regex word class, though after NFD they never reach
the character filter of clean_string). -/
def accentLowers : List Char :=
  ['á', 'é', 'í', 'ó', 'ú', 'ñ', 'ü']

/-- Embedding of the regex word-character class on the modelled
fragment: ASCII alphanumerics, the underscore, and the modelled accented
letters. -/
def pyIsWordChar (c : Char) : Bool :=
  asciiAlnum c || c = '_' || accentLowers.contains c

/-- Combining diacritical marks, the range removed by the second
substitution in clean_string. -/
def isCombining (c : Char) : Bool :=
  0x300 ≤ c.toNat && c.toNat ≤ 0x36F

/-- Character class kept by the first substitution in clean_string:
word characters, whitespace, and the five listed punctuation marks. -/
def allowedChar (c : Char) : Bool :=
  pyIsWordChar c || pyIsSpace c || c = '.' || c = ',' || c = '!' || c = '?' || c = '-'

/-! ### Text Normalizer: clean_string (src/main.py lines 25-30) -/

/-- Embedding of clean_string: strip, lower-case, NFD-decompose, delete
characters outside the allowed class, delete combining marks. -/
def clean_string (s : String) : String :=
  let cs := stripChars s.toList
  let cs := cs.map pyLowerChar
  let cs := cs.flatMap nfdChar
  let cs := cs.filter allowedChar
  let cs := cs.filter (fun c => !isCombining c)
  String.mk cs

/-- Claim under test for the normalizer: idempotence on every string. -/
def claimC9_statement : Prop :=
  ∀ s : String, clean_string (clean_string s) = clean_string s

/-- Characters that every pipeline stage of clean_string maps to
themselves. -/
def cleanFixed (c : Char) : Bool :=
  (pyLowerChar c == c) && (nfdChar c == [c]) && allowedChar c && !isCombining c

/-! ### Course ID Parser: parse_course_ids (src/main.py lines 57-60) -/

/-- Separator class of the regex split: whitespace or comma. -/
def isSepChar (c : Char) : Bool :=
  c = ',' || pyIsSpace c

/-- Embedding of the regex split on runs of whitespace/commas.  The
second argument is `some cur` while a token (possibly empty, at the very
start) is being read, and `none` while a separator run is being skipped;
matching Python, a leading or trailing separator run contributes an
empty token. -/
def reSplitAux : List Char → Option (List Char) → List String
  | [], none => [""]
  | [], some cur => [String.mk cur.reverse]
  | c :: rest, none =>
      if isSepChar c then reSplitAux rest none else reSplitAux rest (some [c])
  | c :: rest, some cur =>
      if isSepChar c then String.mk cur.reverse :: reSplitAux rest none
      else reSplitAux rest (some (c :: cur))

/-- Embedding of re.split on the whitespace-or-comma run pattern. -/
def reSplitWsComma (s : String) : List String :=
  reSplitAux s.toList (some [])

/-- Embedding of Python str.isdigit on one character, on the modelled
fragment: the ASCII decimal digits together with the superscript digits,
which carry the Unicode digit property without being decimal digits. -/
def pyIsDigitChar (c : Char) : Bool :=
  ('0' ≤ c && c ≤ '9') || c = '¹' || c = '²' || c = '³'

/-- Embedding of Python str.isdigit: non-empty and all characters in the
digit class. -/
def pyIsDigitStr (t : String) : Bool :=
  !t.isEmpty && t.toList.all pyIsDigitChar

/-- Embedding of parse_course_ids: split, then keep the stripped token
whenever the stripped token passes str.isdigit. -/
def parse_course_ids (text : String) : List String :=
  let ids := reSplitWsComma text
  ids.filterMap (fun i =>
    let t := pyStripStr i
    if pyIsDigitStr t then some t else none)

/-- Decimal-digit test as the claim words it: non-empty and composed
entirely of decimal digits. -/
def isDecimalDigitStr (t : String) : Bool :=
  !t.isEmpty && t.toList.all (fun c => '0' ≤ c && c ≤ '9')

/-- Parser as the claim describes it: the split-and-trimmed tokens that
are composed entirely of decimal digits, in order, without
deduplication. -/
def claimC8_parse (text : String) : List String :=
  ((reSplitWsComma text).map pyStripStr).filter isDecimalDigitStr

/-- Claim under test for the parser. -/
def claimC8_statement : Prop :=
  ∀ text : String, parse_course_ids text = claimC8_parse text

/-- Tokens the code actually keeps: the split-and-trimmed tokens that
pass Python str.isdigit. -/
def pyDigitTokens (text : String) : List String :=
  ((reSplitWsComma text).map pyStripStr).filter pyIsDigitStr

/-! ### Remote API Client: canvas_request (src/main.py lines 32-55) -/

/-- Response to one HTTP request of the pagination loop: either a
response with a status code, a JSON body and the presence bit of the
next-page link, or a network-level exception raised by the transport. -/
inductive PageResp (J : Type) where
  | resp (status : Nat) (body : List J) (next : Bool)
  | exn (msg : String)
deriving DecidableEq

/-- Success test of the requests library: response.ok is true exactly
when the status code is below 400. -/
def respOk (status : Nat) : Bool :=
  status < 400

/-- Loop of canvas_request over the successive responses, carrying the
accumulated results.  A non-ok status or an exception returns None and
drops the accumulator; in paginated mode the loop continues while the
next link is present, and exiting the loop returns the accumulated
results; in non-paginated mode the first body is returned directly. -/
def canvasLoop {J : Type} (paginated : Bool) : List (PageResp J) → List J → Option (List J)
  | [], results => if paginated then some results else none
  | .exn _ :: _, _ => none
  | .resp status body next :: rest, results =>
      if !respOk status then none
      else if paginated then
        if next then canvasLoop paginated rest (results ++ body)
        else some (results ++ body)
      else some body

/-- Embedding of canvas_request.  The first argument models whether
BASE_URL is configured: when it is not, the function raises, which is
the error value here; otherwise the request loop runs on the modelled
response stream. -/
def canvas_request {J : Type} (baseUrlSet : Bool) (pages : List (PageResp J))
    (paginated : Bool) : Except String (Option (List J)) :=
  if !baseUrlSet then .error ("BASE_URL no está configurada.")
  else .ok (canvasLoop paginated pages [])

/-- Page on which the pagination loop keeps going: ok status and a next
link present. -/
def pageOkNext {J : Type} : PageResp J → Bool
  | .resp status _ next => respOk status && next
  | .exn _ => false

/-- Page that fails as the claim words it: a non-2xx status or a
network-level exception. -/
def pageFailsClaim {J : Type} : PageResp J → Bool
  | .resp status _ _ => !(200 ≤ status && status ≤ 299)
  | .exn _ => true

/-- Page that fails as the code tests it: a status of 400 or above, or a
network-level exception. -/
def pageFailsCode {J : Type} : PageResp J → Bool
  | .resp status _ _ => !respOk status
  | .exn _ => true

/-- Claim under test for the paginated client: any reached failing page
(in the claim's non-2xx sense) makes the whole call yield the single
failure value, discarding every accumulated page. -/
def claimC5_statement : Prop :=
  ∀ (pre : List (PageResp Nat)) (fail : PageResp Nat) (rest : List (PageResp Nat)),
    (∀ p ∈ pre, pageOkNext p = true) → pageFailsClaim fail = true →
      canvas_request true (pre ++ fail :: rest) true = .ok none

/-! ### Participation Calculator (src/main.py lines 180-220) -/

/-- Enrollment record as the counter reads it: the display name under
the user key, absent when either key is missing. -/
structure Enrollment where
  user_name : Option String
deriving DecidableEq

/-- Embedding of get_students_count: zero when the fetch failed or
returned nothing, otherwise the number of enrollments whose user name
differs from the Test Student sentinel. -/
def get_students_count (students : Option (List Enrollment)) : Nat :=
  match students with
  | none => 0
  | some l =>
      if l.isEmpty then 0
      else (l.filter (fun s => !(s.user_name == some ("Test Student")))).length

/-- Quiz submission record as the counter reads it: the two timestamp
fields and the user identifier, each possibly absent. -/
structure QuizSub where
  submitted_at : Option String
  finished_at : Option String
  user_id : Option Int
deriving DecidableEq

/-- Element of the quiz_submissions array: the code only uses elements
that are dictionaries. -/
inductive SubEntry where
  | nondict
  | dict (s : QuizSub)
deriving DecidableEq

/-- Submissions payload returned by the single-page fetch: a failed
fetch (None), a JSON array, or a JSON object carrying an optional
quiz_submissions array plus some number of other keys. -/
inductive SubsPayload where
  | fetchFail
  | arr (xs : List SubEntry)
  | obj (quiz_submissions : Option (List SubEntry)) (otherKeys : Nat)
deriving DecidableEq

/-- Python truthiness of the payload: None and empty containers are
falsy. -/
def subsTruthy : SubsPayload → Bool
  | .fetchFail => false
  | .arr xs => !xs.isEmpty
  | .obj qs extra => qs.isSome || 0 < extra

/-- Python truthiness of an optional string value (missing keys give
None; the empty string is falsy). -/
def optStrTruthy : Option String → Bool
  | some t => !(t == "")
  | none => false

/-- Python truthiness of an optional integer value (missing keys give
None; the integer 0 is falsy). -/
def optIntTruthy : Option Int → Bool
  | some n => !(n == 0)
  | none => false

/-- Filter of the counting loop: a dictionary entry with a truthy
submitted_at or finished_at and a truthy user_id. -/
def subCounted : SubEntry → Bool
  | .nondict => false
  | .dict s => (optStrTruthy s.submitted_at || optStrTruthy s.finished_at)
      && optIntTruthy s.user_id

/-- Set insertion of the counting loop, modelled on a duplicate-free
list. -/
def addId (ids : List Int) (u : Int) : List Int :=
  if u ∈ ids then ids else ids ++ [u]

/-- Loop of get_quiz_submissions_count: walk the entries, adding the
user_id of every counted entry to the id set. -/
def countIdsLoop (entries : List SubEntry) (ids : List Int) : List Int :=
  entries.foldl (fun acc e =>
    match e with
    | .nondict => acc
    | .dict s => if subCounted e then addId acc (s.user_id.getD 0) else acc) ids

/-- Embedding of get_quiz_submissions_count. -/
def get_quiz_submissions_count (p : SubsPayload) : Nat :=
  if !subsTruthy p then 0
  else
    let quiz_submissions :=
      match p with
      | .obj qs _ => qs.getD []
      | _ => []
    (countIdsLoop quiz_submissions []).length

/-- Payload test used by the implicit claim: is the body a JSON
object. -/
def subsIsObj : SubsPayload → Bool
  | .obj _ _ => true
  | _ => false

/-- Enrolled count as the claim words it: enrollments whose user display
name is not the literal Test Student sentinel. -/
def claimC7_enrolled (students : Option (List Enrollment)) : Nat :=
  match students with
  | none => 0
  | some l => (l.filter (fun s => !(s.user_name == some ("Test Student")))).length

/-- User identifiers as the claim words it: the identifiers carried by
dictionary submissions that have a submitted-at or finished-at
timestamp. -/
def claimC7_ids (entries : List SubEntry) : List Int :=
  (entries.filterMap (fun e =>
    match e with
    | .nondict => none
    | .dict s => if s.submitted_at.isSome || s.finished_at.isSome then s.user_id else none))

/-- Answered count as the claim words it: the number of distinct student
identifiers among timestamped submissions of the payload. -/
def claimC7_answered (p : SubsPayload) : Nat :=
  match p with
  | .obj (some es) _ => (claimC7_ids es).dedup.length
  | _ => 0

/-- Claim under test for the two counters. -/
def claimC7_statement : Prop :=
  ∀ (students : Option (List Enrollment)) (p : SubsPayload),
    get_students_count students = claimC7_enrolled students ∧
    get_quiz_submissions_count p = claimC7_answered p

/-- User identifiers as the code actually collects them: truthy
identifiers of dictionary entries with a truthy timestamp. -/
def codeC7_ids (entries : List SubEntry) : List Int :=
  (entries.filterMap (fun e =>
    match e with
    | .nondict => none
    | .dict s => if subCounted e then some (s.user_id.getD 0) else none))

/-- Answered count of the amended claim: distinct truthy identifiers
among entries with a truthy timestamp, and zero for every payload shape
without a quiz_submissions array. -/
def amendedC7_answered (p : SubsPayload) : Nat :=
  match p with
  | .obj (some es) _ => (codeC7_ids es).dedup.length
  | _ => 0

/-- Percentage string of the participation record: the Python format of
value/100 with one decimal digit, modelled as round-half-even of the
exact rational of ten times the percentage (num/den in thousandths). -/
def fmtPct1 (num den : Nat) : String :=
  let q := num / den
  let r := num % den
  let v := if 2 * r < den then q else if den < 2 * r then q + 1
           else if q % 2 = 0 then q else q + 1
  toString (v / 10) ++ "." ++ toString (v % 10) ++ "%"

/-- Participation record built by obtener_participacion_encuesta. -/
structure Participacion where
  curso_id : String
  encuesta : String
  alumnos : Nat
  contestadas : Nat
  pct_contestadas : String
  no_contestadas : Nat
  pct_no_contestadas : String
deriving DecidableEq

/-- Embedding of obtener_participacion_encuesta, taking the two fetched
payloads the counters read. -/
def obtener_participacion_encuesta (curso encuesta : String)
    (students : Option (List Enrollment)) (subs : SubsPayload) : Participacion :=
  let alumnos := get_students_count students
  let contestadas := get_quiz_submissions_count subs
  let no_contestadas := if contestadas ≤ alumnos then alumnos - contestadas else 0
  let pct_contestadas :=
    if 0 < alumnos then fmtPct1 (contestadas * 1000) alumnos else "0%"
  let pct_no_contestadas :=
    if 0 < alumnos then fmtPct1 (no_contestadas * 1000) alumnos else "0%"
  { curso_id := curso, encuesta := encuesta, alumnos := alumnos,
    contestadas := contestadas, pct_contestadas := pct_contestadas,
    no_contestadas := no_contestadas, pct_no_contestadas := pct_no_contestadas }

/-- Shape of a percentage string formatted to one decimal place whose
value rounds num/den thousandths half-to-even, as the claim words it. -/
def oneDecimalPct (s : String) (num den : Nat) : Prop :=
  ∃ w d : Nat, d < 10 ∧ s = toString w ++ "." ++ toString d ++ "%" ∧
    (let q := num / den
     let r := num % den
     10 * w + d = if 2 * r < den then q else if den < 2 * r then q + 1
                  else if q % 2 = 0 then q else q + 1)

/-! ### Report Job Orchestrator (src/main.py lines 101-178) -/

/-- Result of one remote step: a value, or an exception raised while
performing the step (network failure, JSON decoding, missing key). -/
inductive Step (α : Type) where
  | ok (a : α)
  | exn (msg : String)
deriving DecidableEq

/-- Tabular artifact parsed from the downloaded CSV. -/
structure Df where
  header : List String
  rows : List (List String)
deriving DecidableEq

/-- Column assignments df at the end of generate_report: the two tag
columns appended to every row. -/
def addTagCols (df : Df) (course_id quiz_title : String) : Df :=
  { header := df.header ++ ["Curso_ID", "Encuesta"],
    rows := df.rows.map (fun r => r ++ [course_id, quiz_title]) }

/-- Outcome of the polling loop, carrying the number of progress polls
made and the total units slept at the fixed 2-unit interval. -/
inductive PollOutcome where
  | done (attempts slept : Nat)
  | timeout (attempts slept : Nat)
  | exn (msg : String)
deriving DecidableEq

/-- Poll loop of generate_report: on each iteration poll the progress
endpoint; stop successfully when the state is completed, otherwise
sleep 2 units and continue, for at most the given number of
iterations. -/
def pollAux (poll : Nat → Step String) (attempts slept : Nat) : Nat → PollOutcome
  | 0 => .timeout attempts slept
  | fuel + 1 =>
      match poll attempts with
      | .exn m => .exn m
      | .ok st =>
          if st == "completed" then .done (attempts + 1) slept
          else pollAux poll (attempts + 1) (slept + 2) fuel

/-- Poll loop with the ceiling of the source: 120 iterations. -/
def pollReport (poll : Nat → Step String) : PollOutcome :=
  pollAux poll 0 0 120

/-- Environment of one generate_report job: the responses of the remote
system to the successive requests of the workflow.  post is the
submission status; postBody the extraction of id and progress_url from
its body; poll the progress state per attempt; statusGet the status of
the report-descriptor fetch; statusBody the extraction of the file URL;
download the status of the artifact fetch; parse the CSV parse. -/
structure ReportEnv where
  post : Step Nat
  postBody : Step Unit
  poll : Nat → Step String
  statusGet : Step Nat
  statusBody : Step Unit
  download : Step Nat
  parse : Step Df

/-- Error message tagged with the survey title, as every message of
generate_report is. -/
def tagMsg (title body : String) : String :=
  "[" ++ title ++ "] " ++ body

/-- Message of the catch-all except branch of generate_report. -/
def excMsg (title m : String) : String :=
  tagMsg title ("Excepción al generar reporte: " ++ m)

/-- Message of the poll-loop timeout branch. -/
def timeoutMsg (title : String) : String :=
  tagMsg title ("El reporte demoró demasiado en generarse.")

/-- Embedding of generate_report: run the submit, poll, fetch, download
and parse steps in order; every failing step yields None and a tagged
message, a completed run yields the tagged tabular result and no
message. -/
def generate_report (env : ReportEnv) (course_id : String) (quiz_title : String) :
    Option Df × Option String :=
  match env.post with
  | .exn m => (none, some (excMsg quiz_title m))
  | .ok status =>
    if !(status == 200 || status == 201) then
      (none, some (tagMsg quiz_title ("Error al solicitar la generación del reporte (" ++ toString status ++ ").")))
    else
      match env.postBody with
      | .exn m => (none, some (excMsg quiz_title m))
      | .ok _ =>
        match pollReport env.poll with
        | .exn m => (none, some (excMsg quiz_title m))
        | .timeout _ _ => (none, some (timeoutMsg quiz_title))
        | .done _ _ =>
          match env.statusGet with
          | .exn m => (none, some (excMsg quiz_title m))
          | .ok st =>
            if !(st == 200) then
              (none, some (tagMsg quiz_title ("Error al obtener el estado del reporte.")))
            else
              match env.statusBody with
              | .exn m => (none, some (excMsg quiz_title m))
              | .ok _ =>
                match env.download with
                | .exn m => (none, some (excMsg quiz_title m))
                | .ok fst =>
                  if !(fst == 200) then
                    (none, some (tagMsg quiz_title ("Error al descargar el archivo del reporte.")))
                  else
                    match env.parse with
                    | .exn m => (none, some (excMsg quiz_title m))
                    | .ok df => (some (addTagCols df course_id quiz_title), none)

/-- Survey specification submitted to the batch. -/
structure Encuesta where
  course_id : String
  id : Nat
  title : String
deriving DecidableEq

/-- Result of the job submitted for spec number i. -/
def jobResult (envs : Nat → ReportEnv) (i : Nat) (e : Encuesta) :
    Option Df × Option String :=
  generate_report (envs i) e.course_id e.title

/-- Completed future for submission index i, paired with its original
submission index as the future-to-spec dictionary records it. -/
def jobOutput (encuestas : List Encuesta) (envs : Nat → ReportEnv) (i : Nat) :
    Option (Nat × (Option Df × Option String)) :=
  (encuestas.get? i).map (fun e => (i, jobResult envs i e))

/-- Insertion of one completed result into a list sorted by original
index; equal keys keep insertion order, matching a stable sort. -/
def insertByIdx (p : Nat × Df) : List (Nat × Df) → List (Nat × Df)
  | [] => [p]
  | q :: t => if p.1 < q.1 then p :: q :: t else q :: insertByIdx p t

/-- Stable sort by original submission index, the embedding of the
Python sorted call keyed on the recorded index. -/
def sortByIdx (l : List (Nat × Df)) : List (Nat × Df) :=
  l.foldl (fun acc p => insertByIdx p acc) []

/-- Embedding of generar_reportes_en_paralelo.  order is the completion
order of the concurrent futures (a permutation of the submission
indices); results are collected in completion order, keyed by original
index, and the successes are re-sorted by that index at the end. -/
def generar_reportes_en_paralelo (encuestas : List Encuesta)
    (envs : Nat → ReportEnv) (order : List Nat) : List Df × List String :=
  let collected := order.filterMap (jobOutput encuestas envs)
  let resultados := collected.filterMap (fun p => p.2.1.map (fun d => (p.1, d)))
  let errores := collected.filterMap (fun p =>
    match p.2.2 with
    | some m => if m == "" then none else some m
    | none => none)
  let resultados_ordenados := (sortByIdx resultados).map (fun p => p.2)
  (resultados_ordenados, errores)

/-- Successes in submission order, as the ordering contract words it:
walk the specs in the order they were submitted and keep each
successful tabular result. -/
def successesInOrder (encuestas : List Encuesta) (envs : Nat → ReportEnv) : List Df :=
  encuestas.enum.filterMap (fun p => (jobResult envs p.1 p.2).1)

/-- Success pairs keyed by submission index, in submission order. -/
def canonPairs (encuestas : List Encuesta) (envs : Nat → ReportEnv) : List (Nat × Df) :=
  encuestas.enum.filterMap (fun p =>
    ((jobResult envs p.1 p.2).1).map (fun d => (p.1, d)))

/-- Shape of a job outcome: exactly one of a tabular result or a
truthy (non-empty) error message. -/
def exactlyOne (x : Option Df × Option String) : Prop :=
  (x.1.isSome = true ∧ x.2 = none) ∨ (x.1 = none ∧ ∃ m, x.2 = some m ∧ m ≠ "")

/-- Poll response that keeps the loop going: a state, not yet
completed. -/
def pollOkNotCompleted (st : Step String) : Bool :=
  match st with
  | .ok s => !(s == "completed")
  | .exn _ => false

/-- Error message recorded by the job submitted for spec number i, when
there is a spec at that index. -/
def jobErr (encuestas : List Encuesta) (envs : Nat → ReportEnv) (i : Nat) : Option String :=
  (encuestas.get? i).bind (fun e => (jobResult envs i e).2)

/-! ### Spreadsheet Assembler (src/main.py lines 70-86, 395-438) -/

/-- Course metadata used to enrich each block. -/
structure CourseInfo where
  account_id : Option Nat
  subaccount_name : String
  course_code : String

/-- Match of the course-number pattern at the head of the character
list: the literal word, at least one whitespace, then a digit run. -/
def matchCursoAt (cs : List Char) : Option String :=
  if cs.take 5 = ['C', 'u', 'r', 's', 'o'] then
    let rest := cs.drop 5
    let ws := rest.takeWhile pyIsSpace
    if ws.isEmpty then none
    else
      let ds := (rest.drop ws.length).takeWhile (fun c => '0' ≤ c && c ≤ '9')
      if ds.isEmpty then none else some (String.mk ds)
  else none

/-- Match of the section-number pattern at the head of the character
list. -/
def matchSeccionAt (cs : List Char) : Option String :=
  if cs.take 7 = ['S', 'e', 'c', 'c', 'i', 'ó', 'n'] then
    let rest := cs.drop 7
    let ws := rest.takeWhile pyIsSpace
    if ws.isEmpty then none
    else
      let ds := (rest.drop ws.length).takeWhile (fun c => '0' ≤ c && c ≤ '9')
      if ds.isEmpty then none else some (String.mk ds)
  else none

/-- Match of the parenthesised four-digit year at the head of the
character list. -/
def matchAnioAt : List Char → Option String
  | '(' :: a :: b :: c :: d :: ')' :: _ =>
      if [a, b, c, d].all (fun x => '0' ≤ x && x ≤ '9') then
        some (String.mk [a, b, c, d])
      else none
  | _ => none

/-- Leftmost match of a pattern, the search semantics of re.search. -/
def searchFirst (f : List Char → Option String) : List Char → Option String
  | [] => f []
  | c :: rest =>
      match f (c :: rest) with
      | some r => some r
      | none => searchFirst f rest

/-- Embedding of convertir_course_code: extract course, year and
section tokens and join the non-empty parts with a hyphen. -/
def convertir_course_code (nombre : String) : String :=
  let cs := nombre.toList
  let curso := match searchFirst matchCursoAt cs with
    | some n => "c" ++ n
    | none => ""
  let seccion := match searchFirst matchSeccionAt cs with
    | some n => "v" ++ n
    | none => ""
  let anio := (searchFirst matchAnioAt cs).getD ""
  String.intercalate "-" (([curso, anio, seccion]).filter (fun p => !(p == "")))

/-- First value of a named column, the embedding of the iloc read on the
Curso_ID column. -/
def dfGetFirst (df : Df) (col : String) : Option String :=
  match df.header.findIdx? (fun h => h == col) with
  | none => none
  | some i => df.rows.head?.bind (fun r => r.get? i)

/-- Enrichment columns appended to a block before it is written. -/
def enrichDf (df : Df) (info : CourseInfo) : Df :=
  { header := df.header ++ ["Diplomado/Magister", "Course Code"],
    rows := df.rows.map (fun r =>
      r ++ [info.subaccount_name, convertir_course_code info.course_code]) }

/-- Conditional enrichment as the writer performs it: only when the
Curso_ID column is present (the block is already known non-empty). -/
def enrichStep (infoMap : String → CourseInfo) (df : Df) : Df :=
  if df.header.contains ("Curso_ID") && !df.rows.isEmpty then
    enrichDf df (infoMap ((dfGetFirst df ("Curso_ID")).getD ""))
  else df

/-- One to_excel call recorded by the writer model: the source block
index, the starting row, whether the column header row is written, and
the written header and rows. -/
structure WriteOp where
  srcIdx : Nat
  startrow : Nat
  withHeader : Bool
  header : List String
  rows : List (List String)
deriving DecidableEq

/-- Output of the assembler block: the sheet writes, the recorded
warnings, and the error shown when every table is empty. -/
structure SheetOut where
  ops : List WriteOp
  warnings : List String
  errorMsg : Option String
deriving DecidableEq

/-- Warning recorded for an empty table (idx is the 1-based position
shown to the operator). -/
def vaciaMsg (idx : Nat) : String :=
  s!"La encuesta {idx} está vacía y será ignorada en el Excel."

/-- Index of the first non-empty table, which is the only block written
with a header. -/
def firstNonEmptyIdx (rs : List Df) : Option Nat :=
  rs.findIdx? (fun df => !df.rows.isEmpty)

/-- Writer loop over the ordered results: an empty table records a
warning and writes nothing; a non-empty table is enriched and written at
the running cursor, with a header row exactly when it is the first
non-empty table, the cursor advancing by the row count plus one for the
header row. -/
def writeLoop (infoMap : String → CourseInfo) (idxHeader : Nat) :
    List Df → Nat → Nat → List WriteOp × List String
  | [], _, _ => ([], [])
  | df :: rest, idx, startrow =>
      if df.rows.isEmpty then
        let out := writeLoop infoMap idxHeader rest (idx + 1) startrow
        (out.1, vaciaMsg (idx + 1) :: out.2)
      else
        let df2 := enrichStep infoMap df
        if idx = idxHeader then
          let out := writeLoop infoMap idxHeader rest (idx + 1) (startrow + df2.rows.length + 1)
          ({ srcIdx := idx, startrow := startrow, withHeader := true,
             header := df2.header, rows := df2.rows } :: out.1, out.2)
        else
          let out := writeLoop infoMap idxHeader rest (idx + 1) (startrow + df2.rows.length)
          ({ srcIdx := idx, startrow := startrow, withHeader := false,
             header := df2.header, rows := df2.rows } :: out.1, out.2)

/-- Embedding of the ExcelWriter block: find the first non-empty table;
when there is none show the error, otherwise run the writer loop from
row zero. -/
def escribir_reportes (resultados : List Df) (infoMap : String → CourseInfo) : SheetOut :=
  match firstNonEmptyIdx resultados with
  | none =>
      { ops := [], warnings := [],
        errorMsg := some ("No hay datos para exportar. Todas las tablas están vacías.") }
  | some ih =>
      let out := writeLoop infoMap ih resultados 0 0
      { ops := out.1, warnings := out.2, errorMsg := none }

/-- Cursor discipline of a write sequence: each block starts where the
previous one ended, counting one extra row for a written header. -/
def cursorOk : Nat → List WriteOp → Bool
  | _, [] => true
  | pos, op :: rest =>
      (op.startrow == pos) &&
        cursorOk (op.startrow + op.rows.length + (if op.withHeader then 1 else 0)) rest

/-- Claim under test for the assembler: with a non-empty first table and
an empty second one, the sheet holds a header block for the first and a
no-data marker row for the second. -/
def claimC3_statement : Prop :=
  ∀ (d1 d2 : Df) (infoMap : String → CourseInfo),
    d1.rows ≠ [] → d2.rows = [] →
      (∃ op ∈ (escribir_reportes [d1, d2] infoMap).ops,
        op.srcIdx = 0 ∧ op.withHeader = true) ∧
      (∃ op ∈ (escribir_reportes [d1, d2] infoMap).ops, op.srcIdx = 1)

/-! ### Concrete inputs used by the witnesses -/

/-- Enrollment list of the participation test vector: ten students plus
one Test Student exclusion. -/
def studentsW : Option (List Enrollment) :=
  some (List.replicate 10 ⟨some ("Alumno")⟩ ++ [⟨some ("Test Student")⟩])

/-- Submissions payload of the participation test vector: three distinct
respondents, one of them submitting twice. -/
def subsW : SubsPayload :=
  .obj (some
    [.dict ⟨some ("2024-03-01T10:00:00Z"), none, some 1⟩,
     .dict ⟨none, some ("2024-03-01T11:00:00Z"), some 2⟩,
     .dict ⟨some ("2024-03-02T10:00:00Z"), none, some 1⟩,
     .dict ⟨some ("2024-03-03T10:00:00Z"), none, some 3⟩]) 0

/-- Submissions payload with a timestamped submission whose student
identifier is the integer zero. -/
def subZeroPayload : SubsPayload :=
  .obj (some [.dict ⟨some ("2024-01-01T00:00:00Z"), none, some 0⟩]) 0

/-- Non-empty first table of the assembler scenario. -/
def d1W : Df :=
  { header := ["Pregunta", "Respuesta", "Curso_ID", "Encuesta"],
    rows := [["P1", "R1", "101", "E1"], ["P1", "R2", "101", "E1"]] }

/-- Empty second table of the assembler scenario. -/
def d2W : Df :=
  { header := ["Pregunta", "Respuesta", "Curso_ID", "Encuesta"],
    rows := [] }

/-- Course-info lookup of the assembler scenario. -/
def infoW : String → CourseInfo :=
  fun _ => { account_id := some 7, subaccount_name := "Diplomado X",
             course_code := "Curso 12 (2024) Sección 3" }

/-- Parsed CSV of the first witness job. -/
def dfCsvA : Df :=
  { header := ["name", "score"], rows := [["ana", "5"]] }

/-- Parsed CSV of the second successful witness job. -/
def dfCsvB : Df :=
  { header := ["name", "score"], rows := [["luis", "4"]] }

/-- Environment of a job that completes on the first poll. -/
def envOkA : ReportEnv :=
  { post := .ok 200, postBody := .ok (), poll := fun _ => .ok ("completed"),
    statusGet := .ok 200, statusBody := .ok (), download := .ok 200,
    parse := .ok dfCsvA }

/-- Environment of a job that completes on the third poll. -/
def envOkB : ReportEnv :=
  { post := .ok 201, postBody := .ok (),
    poll := fun k => if k < 2 then .ok ("running") else .ok ("completed"),
    statusGet := .ok 200, statusBody := .ok (), download := .ok 200,
    parse := .ok dfCsvB }

/-- Environment of a job whose submission is rejected. -/
def envFail : ReportEnv :=
  { post := .ok 500, postBody := .ok (), poll := fun _ => .ok ("completed"),
    statusGet := .ok 200, statusBody := .ok (), download := .ok 200,
    parse := .ok dfCsvA }

/-- Environment of a job whose polled state never completes. -/
def envTimeout : ReportEnv :=
  { post := .ok 200, postBody := .ok (), poll := fun _ => .ok ("generating"),
    statusGet := .ok 200, statusBody := .ok (), download := .ok 200,
    parse := .ok dfCsvA }

/-- Three submitted specs of the ordering witness. -/
def encuestasW : List Encuesta :=
  [{ course_id := "101", id := 11, title := "Encuesta A" },
   { course_id := "102", id := 22, title := "Encuesta B" },
   { course_id := "103", id := 33, title := "Encuesta C" }]

/-- Environments of the ordering witness: the middle submission is
rejected, the others succeed. -/
def envsW : Nat → ReportEnv :=
  fun i => if i = 0 then envOkA else if i = 1 then envFail else envOkB

/-- Two submitted specs of the timeout witness. -/
def encuestasT : List Encuesta :=
  [{ course_id := "101", id := 11, title := "Encuesta A" },
   { course_id := "102", id := 22, title := "Encuesta B" }]

/-- Environments of the timeout witness: the first job never completes,
the second succeeds. -/
def envsT : Nat → ReportEnv :=
  fun i => if i = 0 then envTimeout else envOkB

/-! ## Theorems -/

/-! ### Text Normalizer -/

/-- Lower-casing is idempotent on the modelled fragment. -/
theorem pyLowerChar_idem (c : Char) : pyLowerChar (pyLowerChar c) = pyLowerChar c := by
  cases h : lowerPairs.find? (fun p => p.1 == c) with
  | none =>
      have hc : pyLowerChar c = c := by simp [pyLowerChar, h]
      rw [hc, hc]
  | some p =>
      have hp := List.mem_of_find?_eq_some h
      have hc : pyLowerChar c = p.2 := by simp [pyLowerChar, h]
      rw [hc]
      fin_cases hp <;> decide

/-- Every non-combining character produced by lower-casing followed by
NFD decomposition is itself fixed by lower-casing and by
decomposition. -/
theorem nfd_image_fixed (x c : Char) (hc : c ∈ nfdChar (pyLowerChar x))
    (hnc : isCombining c = false) : pyLowerChar c = c ∧ nfdChar c = [c] := by
  cases h : nfdPairs.find? (fun p => p.1 == (pyLowerChar x)) with
  | none =>
      have hd : nfdChar (pyLowerChar x) = [pyLowerChar x] := by simp [nfdChar, h]
      rw [hd] at hc
      simp at hc
      subst hc
      exact ⟨pyLowerChar_idem x, by simp [nfdChar, h]⟩
  | some p =>
      have hp := List.mem_of_find?_eq_some h
      have hd : nfdChar (pyLowerChar x) = p.2 := by simp [nfdChar, h]
      rw [hd] at hc
      fin_cases hp <;> simp_all <;> rcases hc with h1 | h1 <;> subst h1 <;> decide

/-- Stripping whitespace from both ends only keeps characters of the
original list. -/
theorem stripChars_subset (cs : List Char) : ∀ c ∈ stripChars cs, c ∈ cs := by
  intro c hc
  simp only [stripChars, List.mem_reverse] at hc
  have h1 := (List.dropWhile_sublist (l := (cs.dropWhile pyIsSpace).reverse)
    (p := pyIsSpace)).subset hc
  rw [List.mem_reverse] at h1
  exact (List.dropWhile_sublist (l := cs) (p := pyIsSpace)).subset h1

/-- Every character of a normalized string is fixed by each stage of the
normalization pipeline. -/
theorem clean_string_chars (s : String) :
    ∀ c ∈ (clean_string s).toList, cleanFixed c = true := by
  intro c hc
  simp only [clean_string, String.toList, List.mem_filter, List.mem_flatMap,
    List.mem_map] at hc
  obtain ⟨⟨⟨x, ⟨y, hy, hyx⟩, hcx⟩, hallow⟩, hcomb⟩ := hc
  subst hyx
  have hfix := nfd_image_fixed y c hcx (by simpa using hcomb)
  simp [cleanFixed, hfix.1, hfix.2, hallow, Bool.not_eq_true'] at hcomb ⊢
  exact hcomb

/-- The pipeline after the strip is the identity on a list of fixed
characters. -/
theorem cleanCore_fixed (cs : List Char) (h : ∀ c ∈ cs, cleanFixed c = true) :
    ((((cs.map pyLowerChar).flatMap nfdChar).filter allowedChar).filter
      (fun c => !isCombining c)) = cs := by
  induction cs with
  | nil => rfl
  | cons a t ih =>
      have ha := h a (by simp)
      simp only [cleanFixed, Bool.and_eq_true, beq_iff_eq] at ha
      obtain ⟨⟨⟨hl, hn⟩, hal⟩, hcomb⟩ := ha
      simp only [List.map_cons, List.flatMap_cons, hl, hn, List.singleton_append,
        List.filter_cons, hal, hcomb, if_true]
      rw [ih (fun c hc => h c (by simp [hc]))]

/-- Normalizing a string all of whose characters are pipeline-fixed is
the same as stripping it. -/
theorem clean_string_of_fixed (t : String) (h : ∀ c ∈ t.toList, cleanFixed c = true) :
    clean_string t = pyStripStr t := by
  simp only [clean_string, pyStripStr]
  exact congrArg String.mk (cleanCore_fixed _ (fun c hc => h c (stripChars_subset _ c hc)))

/-- C9 (amended): the normalizer is deterministic, and it is idempotent
up to a final trim: normalizing a normalized string only strips the
whitespace that deleting disallowed characters may have exposed at the
ends; in particular it is idempotent on every input whose normalized
form has no leading or trailing whitespace. -/
theorem clean_string_idempotent_up_to_strip (s : String) :
    clean_string (clean_string s) = pyStripStr (clean_string s) :=
  clean_string_of_fixed _ (clean_string_chars s)

/-- C9 (counterexample): the normalizer is not idempotent as claimed:
on the input below, deleting the disallowed first character exposes a
leading space, so a second normalization differs from the first. -/
theorem clean_string_not_idempotent : ¬ claimC9_statement := by
  intro h
  have := h ("# a")
  revert this
  decide

/-! ### Course ID Parser -/

/-- Keeping the trimmed token when the trimmed token passes the filter
is the same as trimming every token and filtering. -/
theorem filterMap_strip_filter (l : List String) (f : String → String) (p : String → Bool) :
    l.filterMap (fun i => let t := f i; if p t then some t else none) =
      (l.map f).filter p := by
  induction l with
  | nil => rfl
  | cons a t ih =>
      by_cases h : p (f a) <;>
        simp [List.filterMap_cons, h, ih, List.filter_cons]

/-- C8 (amended): the parser returns exactly the split-and-trimmed
tokens accepted by Python str.isdigit — every character has the Unicode
digit property, a superset of the decimal digits that also contains the
superscript digits — in first-occurrence order and without
deduplication; on decimal-only inputs this is the claimed behaviour. -/
theorem parse_course_ids_digit_tokens :
    (∀ text, parse_course_ids text = pyDigitTokens text) ∧
      parse_course_ids ("12, a, 34 56") = [("12"), ("34"), ("56")] ∧
      parse_course_ids ("7 7") = [("7"), ("7")] := by
  refine ⟨fun text => ?_, by decide, by decide⟩
  simpa [parse_course_ids, pyDigitTokens] using
    filterMap_strip_filter (reSplitWsComma text) pyStripStr pyIsDigitStr

/-- C8 (counterexample): the parser keeps the superscript-two token,
which Python str.isdigit accepts although it is not composed of decimal
digits, so the claimed decimal-only filtering fails. -/
theorem parse_course_ids_keeps_superscript : ¬ claimC8_statement := by
  intro h
  have := h ("²")
  revert this
  decide

/-! ### Remote API Client -/

/-- Helper: reaching a failing page, in the sense the code tests,
returns None and drops whatever accumulator was built so far. -/
theorem canvasLoop_fail {J : Type} (fail : PageResp J) (rest : List (PageResp J))
    (hfail : pageFailsCode fail = true) :
    ∀ (pre : List (PageResp J)) (acc : List J), (∀ p ∈ pre, pageOkNext p = true) →
      canvasLoop true (pre ++ fail :: rest) acc = none := by
  intro pre
  induction pre with
  | nil =>
      intro acc _
      cases fail with
      | exn m => rfl
      | resp st b nx =>
          simp only [pageFailsCode] at hfail
          simp [canvasLoop, hfail]
  | cons p t ih =>
      intro acc hpre
      cases p with
      | exn m => simpa [pageOkNext] using hpre (PageResp.exn m) (by simp)
      | resp st b nx =>
          have hp := hpre (PageResp.resp st b nx) (by simp)
          simp only [pageOkNext, Bool.and_eq_true] at hp
          simp only [List.cons_append, canvasLoop, hp.1, hp.2, Bool.not_true,
            Bool.false_eq_true, if_false, if_true]
          exact ih _ (fun q hq => hpre q (by simp [hq]))

/-- C5 (amended): when any page of a paginated call fails in the sense
the code tests — a status of 400 or above (requests' non-ok), or a
network-level exception — the whole call yields the single failure value
None and none of the pages already accumulated are returned. -/
theorem canvas_request_failure_discards_pages {J : Type} (pre : List (PageResp J))
    (fail : PageResp J) (rest : List (PageResp J))
    (hpre : ∀ p ∈ pre, pageOkNext p = true) (hfail : pageFailsCode fail = true) :
    canvas_request true (pre ++ fail :: rest) true = .ok none := by
  simp only [canvas_request, Bool.not_true, Bool.false_eq_true, if_false, if_true]
  exact congrArg Except.ok (canvasLoop_fail fail rest hfail pre [] hpre)

/-- Witness for C5: a fetch that fails on page 3 discards pages 1 and
2. -/
theorem canvas_request_failure_discards_pages_witness :
    canvas_request true
      ([PageResp.resp 200 [1] true, PageResp.resp 200 [2] true] ++
        PageResp.resp 500 ([] : List Nat) false :: []) true = .ok none :=
  canvas_request_failure_discards_pages _ _ _ (by decide) (by decide)

/-- C5 (counterexample): the code tests requests' ok flag, which is
status below 400, not membership in the 2xx range: a page answered with
a 301 status and a parseable body is not treated as a failure, so the
claim as stated — any non-2xx page status makes the whole call fail —
is false. -/
theorem canvas_request_redirect_not_failure : ¬ claimC5_statement := by
  intro h
  have := h [] (.resp 301 [0] false) [] (by simp) (by decide)
  have h2 : (Except.ok (some [0]) : Except String (Option (List Nat))) = .ok none := by
    rw [← this]
    rfl
  simp at h2

/-! ### Participation Calculator -/

/-- Helper: non-object payloads count zero respondents. -/
theorem quiz_count_nonobject_aux (p : SubsPayload)
    (h : subsIsObj p = false) : get_quiz_submissions_count p = 0 := by
  cases p with
  | fetchFail => rfl
  | arr xs =>
      unfold get_quiz_submissions_count
      split
      · rfl
      · simp [countIdsLoop]
  | obj qs k => simp [subsIsObj] at h

/-- C10: a submissions payload whose body is not a JSON object — a
failed fetch or a JSON array — always yields an answered count of
zero. -/
theorem get_quiz_submissions_count_nonobject (p : SubsPayload)
    (h : subsIsObj p = false) : get_quiz_submissions_count p = 0 :=
  quiz_count_nonobject_aux p h

/-- Witness for C10: an array payload with a plausible timestamped
submission still counts zero. -/
theorem get_quiz_submissions_count_nonobject_witness :
    subsIsObj (SubsPayload.arr [SubEntry.dict ⟨some ("2024-01-01"), none, some 5⟩]) = false ∧
      get_quiz_submissions_count
        (SubsPayload.arr [SubEntry.dict ⟨some ("2024-01-01"), none, some 5⟩]) = 0 :=
  ⟨by decide, get_quiz_submissions_count_nonobject _ (by decide)⟩

/-- Set insertion keeps the id list duplicate-free. -/
theorem addId_nodup (ids : List Int) (u : Int) (h : ids.Nodup) : (addId ids u).Nodup := by
  unfold addId
  split
  · exact h
  · next hu => simp [List.nodup_append, h, hu]

/-- Set insertion inserts into the underlying finite set. -/
theorem addId_toFinset (ids : List Int) (u : Int) :
    (addId ids u).toFinset = insert u ids.toFinset := by
  unfold addId
  split
  · next hu => rw [Finset.insert_eq_self.mpr (by simpa using hu)]
  · rw [List.toFinset_append]
    simp [Finset.union_comm, Finset.insert_eq]

/-- Invariant of the counting loop: starting from a duplicate-free id
set, the loop returns a duplicate-free id set holding exactly the
starting ids together with the truthy ids of the counted entries. -/
theorem countIdsLoop_inv (entries : List SubEntry) :
    ∀ ids : List Int, ids.Nodup →
      (countIdsLoop entries ids).Nodup ∧
      (countIdsLoop entries ids).toFinset = ids.toFinset ∪ (codeC7_ids entries).toFinset := by
  induction entries with
  | nil => intro ids h; simp [countIdsLoop, codeC7_ids, h]
  | cons e t ih =>
      intro ids h
      cases e with
      | nondict => simpa [countIdsLoop, codeC7_ids] using ih ids h
      | dict s =>
          by_cases hc : subCounted (SubEntry.dict s) = true
          · have h2 := ih (addId ids (s.user_id.getD 0)) (addId_nodup _ _ h)
            refine ⟨?_, ?_⟩
            · simpa [countIdsLoop, hc] using h2.1
            · have h3 : countIdsLoop (SubEntry.dict s :: t) ids =
                countIdsLoop t (addId ids (s.user_id.getD 0)) := by
                simp [countIdsLoop, hc]
              rw [h3, h2.2, addId_toFinset]
              simp [codeC7_ids, hc, Finset.insert_union, Finset.union_insert]
          · have h3 : countIdsLoop (SubEntry.dict s :: t) ids = countIdsLoop t ids := by
              simp [countIdsLoop, hc]
            have h4 : codeC7_ids (SubEntry.dict s :: t) = codeC7_ids t := by
              simp [codeC7_ids, hc]
            rw [h3, h4]
            exact ih ids h

/-- Size of the id set built by the loop: the number of distinct truthy
ids among the counted entries. -/
theorem countIdsLoop_length (entries : List SubEntry) :
    (countIdsLoop entries []).length = (codeC7_ids entries).dedup.length := by
  have h := countIdsLoop_inv entries [] (by simp)
  rw [← List.toFinset_card_of_nodup h.1, h.2]
  simp [List.card_toFinset]

/-- C7 (amended): the enrolled count is the number of fetched
enrollments whose user display name is not the literal Test Student;
the answered count is the number of distinct truthy (present, non-zero)
student identifiers among dictionary submissions carrying a truthy
(present, non-empty) submitted-at or finished-at value, so
re-submissions by the same student count once, and every payload shape
without a quiz_submissions array yields zero. -/
theorem participation_counts_spec (students : Option (List Enrollment)) (p : SubsPayload) :
    get_students_count students = claimC7_enrolled students ∧
      get_quiz_submissions_count p = amendedC7_answered p := by
  constructor
  · cases students with
    | none => rfl
    | some l =>
        by_cases h : l.isEmpty
        · rw [List.isEmpty_iff] at h
          subst h
          rfl
        · simp [get_students_count, h, claimC7_enrolled]
  · cases p with
    | fetchFail => rfl
    | arr xs =>
        rw [quiz_count_nonobject_aux _ (by rfl)]
        rfl
    | obj qs k =>
        cases qs with
        | none =>
            unfold get_quiz_submissions_count
            split
            · rfl
            · simp [countIdsLoop, amendedC7_answered]
        | some es =>
            have ht : subsTruthy (SubsPayload.obj (some es) k) = true := by
              simp [subsTruthy]
            simp only [get_quiz_submissions_count, ht, Bool.not_true,
              Bool.false_eq_true, if_false, amendedC7_answered]
            exact countIdsLoop_length es

/-- C7 (counterexample): a submission timestamped and carrying the
student identifier zero is dropped by the code's truthiness test on
user_id, while the claim counts its identifier, so the claimed equality
fails. -/
theorem quiz_submissions_drop_zero_user_id : ¬ claimC7_statement := by
  intro h
  have := (h none subZeroPayload).2
  revert this
  decide

/-- Value of fmtPct1 is a one-decimal percentage string of the
round-half-even value of the thousandths fraction. -/
theorem fmtPct1_spec (num den : Nat) : oneDecimalPct (fmtPct1 num den) num den := by
  unfold oneDecimalPct fmtPct1
  exact ⟨_, _, Nat.mod_lt _ (by norm_num), rfl, Nat.div_add_mod _ 10⟩

/-- C6: the participation record floors unanswered at zero, renders both
percentages as the fixed string when nobody is enrolled, and otherwise
renders both as enrolled-relative one-decimal percentage strings. -/
theorem obtener_participacion_fields (curso encuesta : String)
    (students : Option (List Enrollment)) (subs : SubsPayload) :
    ((obtener_participacion_encuesta curso encuesta students subs).no_contestadas : Int) =
        max ((get_students_count students : Int) - (get_quiz_submissions_count subs : Int)) 0 ∧
      (get_students_count students = 0 →
        (obtener_participacion_encuesta curso encuesta students subs).pct_contestadas = "0%" ∧
        (obtener_participacion_encuesta curso encuesta students subs).pct_no_contestadas = "0%") ∧
      (0 < get_students_count students →
        oneDecimalPct (obtener_participacion_encuesta curso encuesta students subs).pct_contestadas
          (get_quiz_submissions_count subs * 1000) (get_students_count students) ∧
        oneDecimalPct (obtener_participacion_encuesta curso encuesta students subs).pct_no_contestadas
          ((obtener_participacion_encuesta curso encuesta students subs).no_contestadas * 1000)
          (get_students_count students)) := by
  refine ⟨?_, fun h0 => ?_, fun hpos => ?_⟩
  · rcases le_or_lt (get_quiz_submissions_count subs) (get_students_count students) with h | h
    · simp only [obtener_participacion_encuesta, if_pos h]
      rw [Nat.cast_sub h, max_eq_left (by omega)]
    · simp only [obtener_participacion_encuesta, if_neg (not_le.mpr h)]
      rw [max_eq_right (by omega)]
      rfl
  · constructor <;> simp [obtener_participacion_encuesta, h0]
  · constructor <;>
      · simp only [obtener_participacion_encuesta, if_pos hpos]
        exact fmtPct1_spec _ _

/-- Witness for C6: ten enrolled, three distinct respondents — the
answered percentage is the one-decimal string for thirty percent. -/
theorem obtener_participacion_fields_witness :
    0 < get_students_count studentsW ∧
      oneDecimalPct
        (obtener_participacion_encuesta ("101") ("Encuesta docente") studentsW subsW).pct_contestadas
        (get_quiz_submissions_count subsW * 1000) (get_students_count studentsW) ∧
      (obtener_participacion_encuesta ("101") ("Encuesta docente") studentsW subsW).pct_contestadas
        = "30.0%" ∧
      (obtener_participacion_encuesta ("101") ("Encuesta docente") studentsW subsW).no_contestadas
        = 7 :=
  ⟨by decide,
   ((obtener_participacion_fields ("101") ("Encuesta docente") studentsW subsW).2.2
     (by decide)).1,
   by decide, by decide⟩

/-! ### Spreadsheet Assembler -/

/-- Source index and header bit of the written blocks: exactly the
non-empty tables in order, with the header bit exactly on the designated
index. -/
theorem writeLoop_map_idx_hdr (infoMap : String → CourseInfo) (ih : Nat) (rs : List Df) :
    ∀ idx startrow : Nat,
      (writeLoop infoMap ih rs idx startrow).1.map (fun op => (op.srcIdx, op.withHeader)) =
        ((List.enumFrom idx rs).filter (fun p => !p.2.rows.isEmpty)).map
          (fun p => (p.1, decide (p.1 = ih))) := by
  induction rs with
  | nil => intro idx startrow; rfl
  | cons df rest ihr =>
      intro idx startrow
      by_cases he : df.rows.isEmpty
      · simp only [writeLoop, he, if_true, List.enumFrom_cons, List.filter_cons,
          Bool.not_true, Bool.false_eq_true]
        exact ihr (idx + 1) startrow
      · by_cases hh : idx = ih
        · simp only [writeLoop, he, if_false, hh, if_true, List.map_cons,
            List.enumFrom_cons, List.filter_cons, Bool.not_false, List.map]
          rw [ihr (ih + 1) (startrow + (enrichStep infoMap df).rows.length + 1)]
          simp [hh]
        · simp only [writeLoop, he, if_false, hh, List.map_cons,
            List.enumFrom_cons, List.filter_cons, Bool.not_false, List.map]
          rw [ihr (idx + 1) (startrow + (enrichStep infoMap df).rows.length)]
          simp [hh]

/-- Cursor discipline of the writer loop: every written block starts
where the previous one ended. -/
theorem writeLoop_cursorOk (infoMap : String → CourseInfo) (ih : Nat) (rs : List Df) :
    ∀ idx startrow : Nat,
      cursorOk startrow (writeLoop infoMap ih rs idx startrow).1 = true := by
  induction rs with
  | nil => intro idx startrow; rfl
  | cons df rest ihr =>
      intro idx startrow
      by_cases he : df.rows.isEmpty
      · simp only [writeLoop, he, if_true]
        exact ihr (idx + 1) startrow
      · by_cases hh : idx = ih
        · simp only [writeLoop, he, if_false, hh, if_true, cursorOk, beq_self_eq_true,
            Bool.true_and]
          exact ihr (ih + 1) (startrow + (enrichStep infoMap df).rows.length + 1)
        · simp only [writeLoop, he, if_false, hh, cursorOk, beq_self_eq_true,
            Bool.true_and]
          simpa using ihr (idx + 1) (startrow + (enrichStep infoMap df).rows.length)

/-- C3 (amended): with a non-empty first table and an empty second one,
the sheet holds exactly one block — the enriched first table, written
with its header at row zero — and nothing at all for the second table:
no marker row and no blank header row; instead a no-data warning is
recorded for it. In general, blocks are written for exactly the
non-empty tables in order, the column header is written only for the
first non-empty table, and each subsequent block appends headerless at
the running cursor position. -/
theorem escribir_reportes_empty_block_behavior :
    (∀ (d1 d2 : Df) (infoMap : String → CourseInfo), d1.rows ≠ [] → d2.rows = [] →
      (escribir_reportes [d1, d2] infoMap).ops =
          [{ srcIdx := 0, startrow := 0, withHeader := true,
             header := (enrichStep infoMap d1).header,
             rows := (enrichStep infoMap d1).rows }] ∧
        (escribir_reportes [d1, d2] infoMap).warnings = [vaciaMsg 2] ∧
        (escribir_reportes [d1, d2] infoMap).errorMsg = none) ∧
    (∀ (rs : List Df) (infoMap : String → CourseInfo) (ih : Nat),
      firstNonEmptyIdx rs = some ih →
        (escribir_reportes rs infoMap).ops.map (fun op => (op.srcIdx, op.withHeader)) =
          (rs.enum.filter (fun p => !p.2.rows.isEmpty)).map
            (fun p => (p.1, decide (p.1 = ih)))) ∧
    (∀ (rs : List Df) (infoMap : String → CourseInfo),
      cursorOk 0 (escribir_reportes rs infoMap).ops = true) := by
  refine ⟨fun d1 d2 infoMap h1 h2 => ?_, fun rs infoMap ih hih => ?_, fun rs infoMap => ?_⟩
  · have h1' : d1.rows.isEmpty = false := by
      rw [List.isEmpty_eq_false]
      exact h1
    have h2' : d2.rows.isEmpty = true := by
      rw [List.isEmpty_iff]
      exact h2
    have hfi : firstNonEmptyIdx [d1, d2] = some 0 := by
      simp [firstNonEmptyIdx, List.findIdx?, h1']
    simp [escribir_reportes, hfi, writeLoop, h1', h2']
  · unfold escribir_reportes
    rw [hih]
    exact writeLoop_map_idx_hdr infoMap ih rs 0 0
  · unfold escribir_reportes
    cases hfi : firstNonEmptyIdx rs with
    | none => rfl
    | some ih => exact writeLoop_cursorOk infoMap ih rs 0 0

/-- Witness for C3: the concrete two-table scenario, one non-empty and
one empty. -/
theorem escribir_reportes_empty_block_behavior_witness :
    (escribir_reportes [d1W, d2W] infoW).ops =
        [{ srcIdx := 0, startrow := 0, withHeader := true,
           header := (enrichStep infoW d1W).header,
           rows := (enrichStep infoW d1W).rows }] ∧
      (escribir_reportes [d1W, d2W] infoW).warnings = [vaciaMsg 2] ∧
      (escribir_reportes [d1W, d2W] infoW).errorMsg = none :=
  escribir_reportes_empty_block_behavior.1 d1W d2W infoW (by decide) (by decide)

/-- C3 (counterexample): the code writes nothing at all to the sheet for
an empty table — the no-data notice is a recorded warning, not a marker
row — so the claimed marker row for the second survey does not exist. -/
theorem escribir_reportes_no_marker_row : ¬ claimC3_statement := by
  intro h
  have := (h d1W d2W infoW (by decide) (by decide)).2
  revert this
  decide

/-! ### Report Job Orchestrator -/

/-- Inserting into a sorted-by-index list permutes the element onto the
list. -/
theorem insertByIdx_perm (p : Nat × Df) (l : List (Nat × Df)) :
    (insertByIdx p l).Perm (p :: l) := by
  induction l with
  | nil => exact List.Perm.refl _
  | cons q t ih =>
      unfold insertByIdx
      split
      · exact List.Perm.refl _
      · exact ((ih.cons q).trans (List.Perm.swap p q t))

/-- Membership after an insertion. -/
theorem mem_insertByIdx (p x : Nat × Df) (l : List (Nat × Df)) (h : x ∈ insertByIdx p l) :
    x = p ∨ x ∈ l := by
  have := (insertByIdx_perm p l).mem_iff.mp h
  simpa using this

/-- Insertion preserves sortedness by index. -/
theorem insertByIdx_sorted (p : Nat × Df) (l : List (Nat × Df))
    (h : l.Pairwise (fun a b => a.1 ≤ b.1)) :
    (insertByIdx p l).Pairwise (fun a b => a.1 ≤ b.1) := by
  induction l with
  | nil => simp [insertByIdx]
  | cons q t ih =>
      rw [List.pairwise_cons] at h
      unfold insertByIdx
      split
      · next hlt =>
          rw [List.pairwise_cons]
          refine ⟨?_, List.pairwise_cons.mpr h⟩
          intro x hx
          rcases List.mem_cons.mp hx with hx | hx
          · subst hx; omega
          · exact le_trans (le_of_lt hlt) (h.1 x hx)
      · next hge =>
          rw [List.pairwise_cons]
          refine ⟨?_, ih h.2⟩
          intro x hx
          rcases mem_insertByIdx p x t hx with hx | hx
          · subst hx; omega
          · exact h.1 x hx

/-- The stable sort is a permutation of its input. -/
theorem sortByIdx_perm (l : List (Nat × Df)) : (sortByIdx l).Perm l := by
  suffices h : ∀ (l acc : List (Nat × Df)),
      (l.foldl (fun acc p => insertByIdx p acc) acc).Perm (acc ++ l) by
    simpa using h l []
  intro l
  induction l with
  | nil => intro acc; simp
  | cons p t ih =>
      intro acc
      rw [List.foldl_cons]
      refine (ih (insertByIdx p acc)).trans ?_
      refine (((insertByIdx_perm p acc).append_right t).trans ?_)
      exact (List.perm_middle).symm

/-- The stable sort is sorted by index. -/
theorem sortByIdx_sorted (l : List (Nat × Df)) :
    (sortByIdx l).Pairwise (fun a b => a.1 ≤ b.1) := by
  suffices h : ∀ (l acc : List (Nat × Df)), acc.Pairwise (fun a b => a.1 ≤ b.1) →
      (l.foldl (fun acc p => insertByIdx p acc) acc).Pairwise (fun a b => a.1 ≤ b.1) by
    exact h l [] (by simp)
  intro l
  induction l with
  | nil => intro acc h; simpa using h
  | cons p t ih =>
      intro acc h
      rw [List.foldl_cons]
      exact ih _ (insertByIdx_sorted p acc h)

/-- Indices of an enumeration are bounded below by its start. -/
theorem enumFrom_fst_le {α : Type} (l : List α) : ∀ (k : Nat) (q : Nat × α),
    q ∈ List.enumFrom k l → k ≤ q.1 := by
  induction l with
  | nil => intro k q h; simp at h
  | cons a t ih =>
      intro k q h
      rw [List.enumFrom_cons] at h
      rcases List.mem_cons.mp h with h | h
      · subst h; exact le_refl _
      · exact le_trans (Nat.le_succ k) (ih (k + 1) q h)

/-- Indices of an enumeration are strictly increasing. -/
theorem enumFrom_pairwise_lt {α : Type} (l : List α) :
    ∀ k : Nat, (List.enumFrom k l).Pairwise (fun p q => p.1 < q.1) := by
  induction l with
  | nil => intro k; simp
  | cons a t ih =>
      intro k
      rw [List.enumFrom_cons, List.pairwise_cons]
      exact ⟨fun q hq => lt_of_lt_of_le (Nat.lt_succ_self k) (enumFrom_fst_le t (k + 1) q hq),
        ih (k + 1)⟩

/-- Mapping over an enumeration is the same as collecting the indexed
reads over the index range. -/
theorem enumFrom_map_filterMap_get {α β : Type} (l : List α) (g : Nat → α → β) :
    ∀ k : Nat, (List.enumFrom k l).map (fun p => g p.1 p.2) =
      (List.range l.length).filterMap (fun i => (l.get? i).map (fun e => g (k + i) e)) := by
  induction l with
  | nil => intro k; rfl
  | cons a t ih =>
      intro k
      rw [List.enumFrom_cons, List.map_cons, List.length_cons, List.range_succ_eq_map,
        List.filterMap_cons, List.filterMap_map]
      have h0 : (((a :: t).get? 0).map (fun e => g (k + 0) e)) = some (g k a) := rfl
      rw [h0]
      have hf : ((fun i => ((a :: t).get? i).map (fun e => g (k + i) e)) ∘ Nat.succ) =
          (fun i => (t.get? i).map (fun e => g (k + 1 + i) e)) := by
        funext i
        show ((a :: t).get? (i + 1)).map (fun e => g (k + (i + 1)) e) = _
        rw [show k + (i + 1) = k + 1 + i by omega]
        rfl
      rw [hf, ih (k + 1)]

/-- Collecting every submitted job over the index range yields the jobs
in submission order. -/
theorem jobs_eq (encuestas : List Encuesta) (envs : Nat → ReportEnv) :
    (List.range encuestas.length).filterMap (jobOutput encuestas envs) =
      encuestas.enum.map (fun p => (p.1, jobResult envs p.1 p.2)) := by
  have h := enumFrom_map_filterMap_get encuestas (fun i e => (i, jobResult envs i e)) 0
  rw [show List.enumFrom 0 encuestas = encuestas.enum from rfl] at h
  rw [h]
  congr 1
  funext i
  simp only [Nat.zero_add]
  rfl

/-- The success pairs collected in any completion order are a
permutation of the success pairs in submission order. -/
theorem resultados_perm (encuestas : List Encuesta) (envs : Nat → ReportEnv)
    (order : List Nat) (horder : order.Perm (List.range encuestas.length)) :
    ((order.filterMap (jobOutput encuestas envs)).filterMap
        (fun p => p.2.1.map (fun d => (p.1, d)))).Perm (canonPairs encuestas envs) := by
  have h1 : (order.filterMap (jobOutput encuestas envs)).Perm
      ((List.range encuestas.length).filterMap (jobOutput encuestas envs)) :=
    horder.filterMap _
  have h2 := h1.filterMap
    (fun p : Nat × (Option Df × Option String) => p.2.1.map (fun d => (p.1, d)))
  refine h2.trans ?_
  rw [jobs_eq, List.filterMap_map]
  exact List.Perm.refl _

/-- Success pairs in submission order carry strictly increasing
indices. -/
theorem canonPairs_pairwise (encuestas : List Encuesta) (envs : Nat → ReportEnv) :
    (canonPairs encuestas envs).Pairwise (fun a b => a.1 < b.1) := by
  refine List.Pairwise.filterMap _ ?_ (enumFrom_pairwise_lt encuestas 0)
  intro a a' hlt b hb b' hb'
  have hb1 : b.1 = a.1 := by
    rcases ha : (jobResult envs a.1 a.2).1 with _ | d
    · rw [ha] at hb; simp at hb
    · rw [ha] at hb; simp at hb; rw [← hb]
  have hb2 : b'.1 = a'.1 := by
    rcases ha : (jobResult envs a'.1 a'.2).1 with _ | d
    · rw [ha] at hb'; simp at hb'
    · rw [ha] at hb'; simp at hb'; rw [← hb']
  rw [hb1, hb2]
  exact hlt

/-- Core ordering property of the batch: for every completion order that
is a permutation of the submission indices, the returned successes are
exactly the successes in submission order. -/
theorem generar_fst_eq (encuestas : List Encuesta) (envs : Nat → ReportEnv)
    (order : List Nat) (horder : order.Perm (List.range encuestas.length)) :
    (generar_reportes_en_paralelo encuestas envs order).1 =
      successesInOrder encuestas envs := by
  have hperm0 := resultados_perm encuestas envs order horder
  set resultados := ((order.filterMap (jobOutput encuestas envs)).filterMap
    (fun p => p.2.1.map (fun d => (p.1, d)))) with hres
  have hsortperm : (sortByIdx resultados).Perm (canonPairs encuestas envs) :=
    (sortByIdx_perm resultados).trans hperm0
  have hcanon := canonPairs_pairwise encuestas envs
  have hkeysnd : ((canonPairs encuestas envs).map Prod.fst).Nodup := by
    refine List.Pairwise.imp ?_ (List.pairwise_map.mpr hcanon)
    exact fun h => Nat.ne_of_lt h
  have hsortkeys : ((sortByIdx resultados).map Prod.fst).Nodup :=
    (hsortperm.map Prod.fst).symm.nodup hkeysnd
  have hsortne : (sortByIdx resultados).Pairwise (fun a b => a.1 ≠ b.1) :=
    List.pairwise_map.mp hsortkeys
  have hsortlt : (sortByIdx resultados).Pairwise (fun a b => a.1 < b.1) := by
    refine List.Pairwise.imp ?_ ((sortByIdx_sorted resultados).and hsortne)
    rintro a b ⟨h1, h2⟩
    exact lt_of_le_of_ne h1 h2
  haveI : IsAntisymm (Nat × Df) (fun a b => a.1 < b.1) :=
    ⟨fun a b h1 h2 => absurd (lt_trans h1 h2) (lt_irrefl _)⟩
  have heq : sortByIdx resultados = canonPairs encuestas envs :=
    List.eq_of_perm_of_sorted hsortperm hsortlt hcanon
  show (sortByIdx resultados).map (fun p => p.2) = successesInOrder encuestas envs
  rw [heq]
  unfold canonPairs successesInOrder
  rw [List.map_filterMap]
  congr 1
  funext p
  rcases hj : (jobResult envs p.1 p.2).1 with _ | d <;> simp [hj]

/-- Tagged messages are never empty. -/
theorem tagMsg_ne_empty (title body : String) : tagMsg title body ≠ "" := by
  intro h
  have hlen : (tagMsg title body).length = 0 := by rw [h]; rfl
  unfold tagMsg at hlen
  simp only [String.length_append] at hlen
  have h1 : ("[" : String).length = 1 := rfl
  rw [h1] at hlen
  omega

/-- Every job yields exactly one of a tabular result or a non-empty
tagged error message. -/
theorem generate_report_exactlyOne (env : ReportEnv) (cid t : String) :
    exactlyOne (generate_report env cid t) := by
  unfold generate_report
  repeat' split
  all_goals first
    | exact Or.inl ⟨rfl, rfl⟩
    | exact Or.inr ⟨rfl, _, rfl, tagMsg_ne_empty _ _⟩

/-- Per-element bookkeeping: when every collected job satisfies the
exactly-one shape, successes plus truthy errors count the collected
jobs. -/
theorem count_aux (l : List (Nat × (Option Df × Option String)))
    (h : ∀ p ∈ l, exactlyOne p.2) :
    (l.filterMap (fun p => p.2.1.map (fun d => (p.1, d)))).length +
      (l.filterMap (fun p =>
        match p.2.2 with
        | some m => if m == "" then none else some m
        | none => none)).length = l.length := by
  induction l with
  | nil => rfl
  | cons p t ih =>
      have hp := h p (by simp)
      have ht := ih (fun q hq => h q (by simp [hq]))
      rcases hp with ⟨h1, h2⟩ | ⟨h1, m, h2, h3⟩
      · rcases hs : p.2.1 with _ | d
        · rw [hs] at h1; simp at h1
        · simp only [List.filterMap_cons, hs, Option.map_some', h2, List.length_cons]
          omega
      · have h3' : (m == "") = false := beq_eq_false_iff_ne.mpr h3
        simp only [List.filterMap_cons, h1, h2, Option.map_none', h3', List.length_cons,
          Bool.false_eq_true, if_false]
        omega

/-- Collecting with a function that succeeds on every element keeps the
length. -/
theorem filterMap_length_of_isSome {α β : Type} (f : α → Option β) (l : List α)
    (h : ∀ a ∈ l, (f a).isSome = true) : (l.filterMap f).length = l.length := by
  induction l with
  | nil => rfl
  | cons a t ih =>
      have ha := h a (by simp)
      rcases hf : f a with _ | b
      · rw [hf] at ha; simp at ha
      · simp only [List.filterMap_cons, hf, List.length_cons]
        rw [ih (fun x hx => h x (by simp [hx]))]

/-- Core counting property of the batch: returned successes plus
recorded errors equal the number of submitted specs. -/
theorem generar_count (encuestas : List Encuesta) (envs : Nat → ReportEnv)
    (order : List Nat) (horder : order.Perm (List.range encuestas.length)) :
    (generar_reportes_en_paralelo encuestas envs order).1.length +
      (generar_reportes_en_paralelo encuestas envs order).2.length =
      encuestas.length := by
  show ((sortByIdx ((order.filterMap (jobOutput encuestas envs)).filterMap
      (fun p => p.2.1.map (fun d => (p.1, d))))).map (fun p => p.2)).length +
    ((order.filterMap (jobOutput encuestas envs)).filterMap (fun p =>
      match p.2.2 with
      | some m => if m == "" then none else some m
      | none => none)).length = encuestas.length
  rw [List.length_map, (sortByIdx_perm _).length_eq]
  have hcoll : ∀ p ∈ order.filterMap (jobOutput encuestas envs), exactlyOne p.2 := by
    intro p hp
    rcases List.mem_filterMap.mp hp with ⟨i, _, hji⟩
    unfold jobOutput at hji
    rcases hg : encuestas.get? i with _ | e
    · rw [hg] at hji; simp at hji
    · rw [hg] at hji
      simp only [Option.map_some', Option.some.injEq] at hji
      rw [← hji]
      exact generate_report_exactlyOne (envs i) e.course_id e.title
  rw [count_aux _ hcoll]
  have hlen : (order.filterMap (jobOutput encuestas envs)).length = order.length := by
    refine filterMap_length_of_isSome _ _ ?_
    intro i hi
    have hir : i ∈ List.range encuestas.length := horder.mem_iff.mp hi
    have hilt : i < encuestas.length := List.mem_range.mp hir
    unfold jobOutput
    rcases hg : encuestas.get? i with _ | e
    · have := List.get?_eq_none.mp hg
      omega
    · simp
  rw [hlen, horder.length_eq, List.length_range]

/-- Collecting an indicator over a list yields one copy per hit. -/
theorem filterMap_indicator (l : List Nat) (j : Nat) (v : String) :
    l.filterMap (fun i => if i = j then some v else none) =
      List.replicate (l.count j) v := by
  induction l with
  | nil => rfl
  | cons a t ih =>
      by_cases h : a = j
      · subst h
        rw [List.count_cons_self, List.replicate_succ, ← ih]
        simp [List.filterMap_cons]
      · rw [List.count_cons_of_ne (fun hh => h hh.symm)]
        simp only [List.filterMap_cons, if_neg h]
        exact ih

/-- Error list of a batch in which exactly one job errors: that single
message, whatever the completion order. -/
theorem generar_snd_single (encuestas : List Encuesta) (envs : Nat → ReportEnv)
    (order : List Nat) (j : Nat) (ej : Encuesta) (v : String)
    (horder : order.Perm (List.range encuestas.length))
    (hj : encuestas.get? j = some ej)
    (hjerr : (jobResult envs j ej).2 = some v) (hv : (v == "") = false)
    (hothers : ∀ i e, i ≠ j → encuestas.get? i = some e → (jobResult envs i e).2 = none) :
    (generar_reportes_en_paralelo encuestas envs order).2 = [v] := by
  show (order.filterMap (jobOutput encuestas envs)).filterMap (fun p =>
      match p.2.2 with
      | some m => if m == "" then none else some m
      | none => none) = [v]
  rw [List.filterMap_filterMap]
  have hfun : (fun i => (jobOutput encuestas envs i).bind (fun p =>
      match p.2.2 with
      | some m => if m == "" then none else some m
      | none => none)) = (fun i => if i = j then some v else none) := by
    funext i
    by_cases hij : i = j
    · subst hij
      unfold jobOutput
      rw [hj]
      simp [hjerr, hv]
      exact beq_eq_false_iff_ne.mp hv
    · rcases hg : encuestas.get? i with _ | e
      · unfold jobOutput
        rw [hg]
        simp [hij]
      · unfold jobOutput
        rw [hg]
        simp [hothers i e hij hg, hij]
  rw [hfun, filterMap_indicator]
  have hcount : order.count j = 1 := by
    rw [horder.count_eq]
    refine List.count_eq_one_of_mem (List.nodup_range _) ?_
    rw [List.mem_range]
    exact (List.get?_eq_some.mp hj).1
  rw [hcount]
  rfl

/-- Poll loop that never sees a completed state runs its full fuel,
polling once and sleeping two units per iteration. -/
theorem pollAux_timeout (poll : Nat → Step String) :
    ∀ (fuel attempts slept : Nat),
      (∀ k, attempts ≤ k → k < attempts + fuel → pollOkNotCompleted (poll k) = true) →
      pollAux poll attempts slept fuel =
        .timeout (attempts + fuel) (slept + 2 * fuel) := by
  intro fuel
  induction fuel with
  | zero => intro attempts slept h; simp [pollAux]
  | succ fuel ih =>
      intro attempts slept h
      have hk := h attempts (le_refl _) (by omega)
      unfold pollAux
      rcases hp : poll attempts with s | m
      · rw [hp] at hk
        unfold pollOkNotCompleted at hk
        rw [Bool.not_eq_true'] at hk
        simp only [hk, Bool.false_eq_true, if_false]
        rw [ih (attempts + 1) (slept + 2) (fun k h1 h2 => h k (by omega) (by omega))]
        congr 1 <;> omega
      · rw [hp] at hk
        simp [pollOkNotCompleted] at hk

/-- The source poll ceiling: a job that never completes times out after
exactly 120 polls and 240 slept units. -/
theorem pollReport_timeout (poll : Nat → Step String)
    (h : ∀ k, k < 120 → pollOkNotCompleted (poll k) = true) :
    pollReport poll = .timeout 120 240 := by
  have := pollAux_timeout poll 120 0 0 (fun k h1 h2 => h k (by omega))
  simpa [pollReport] using this

/-- A submitted job whose polled state never completes fails with the
timeout message and a null result. -/
theorem generate_report_timeout (env : ReportEnv) (cid t : String)
    (hpost : env.post = Step.ok 200) (hpb : env.postBody = Step.ok ())
    (hpoll : ∀ k, k < 120 → pollOkNotCompleted (env.poll k) = true) :
    generate_report env cid t = (none, some (timeoutMsg t)) := by
  unfold generate_report
  rw [hpost, hpb, pollReport_timeout env.poll hpoll]
  rfl

/-- C1: for every ordered sequence of submitted specs and every
completion order of the concurrent jobs (any permutation of the
submission indices), the returned sequence of successful tabular results
equals the successes taken in submission order: successes keep exactly
the relative order in which their specs were submitted, independent of
completion order, and a failed spec is simply absent without disturbing
the others. -/
theorem generar_reportes_ordering (encuestas : List Encuesta) (envs : Nat → ReportEnv)
    (order : List Nat) (horder : order.Perm (List.range encuestas.length)) :
    (generar_reportes_en_paralelo encuestas envs order).1 =
      successesInOrder encuestas envs :=
  generar_fst_eq encuestas envs order horder

/-- Witness for C1: three submissions completing in the order third,
first, second, with the second submission rejected: the successes come
back as first then third. -/
theorem generar_reportes_ordering_witness :
    ([2, 0, 1] : List Nat).Perm (List.range encuestasW.length) ∧
      (generar_reportes_en_paralelo encuestasW envsW [2, 0, 1]).1 =
        successesInOrder encuestasW envsW ∧
      successesInOrder encuestasW envsW =
        [addTagCols dfCsvA ("101") ("Encuesta A"),
         addTagCols dfCsvB ("103") ("Encuesta C")] :=
  ⟨by decide, generar_reportes_ordering encuestasW envsW [2, 0, 1] (by decide), by decide⟩

/-- C2: each per-spec job yields exactly one of a non-null result or a
non-empty error message, and for every completion order the number of
returned successes plus the number of recorded error messages equals the
number of submitted specs: no submission is silently dropped. -/
theorem generar_reportes_total_count (encuestas : List Encuesta) (envs : Nat → ReportEnv)
    (order : List Nat) (horder : order.Perm (List.range encuestas.length)) :
    (generar_reportes_en_paralelo encuestas envs order).1.length +
        (generar_reportes_en_paralelo encuestas envs order).2.length =
        encuestas.length ∧
      ∀ i e, encuestas.get? i = some e → exactlyOne (jobResult envs i e) :=
  ⟨generar_count encuestas envs order horder,
   fun i e _ => generate_report_exactlyOne (envs i) e.course_id e.title⟩

/-- Witness for C2: two successes and one error out of three
submissions. -/
theorem generar_reportes_total_count_witness :
    (generar_reportes_en_paralelo encuestasW envsW [2, 0, 1]).1.length +
        (generar_reportes_en_paralelo encuestasW envsW [2, 0, 1]).2.length =
        encuestasW.length ∧
      encuestasW.length = 3 :=
  ⟨(generar_reportes_total_count encuestasW envsW [2, 0, 1] (by decide)).1, by decide⟩

/-- C4: a job whose polled state never reaches completed within the 120
poll attempts (each followed by a 2-unit sleep, 240 units in all) times
out: it contributes a null result and exactly one error message, the
timeout message tagged with its survey title; when every other job
succeeds the error list is exactly that single message, and the
successes of the other jobs are still returned, in submission order,
whatever the completion order. -/
theorem generate_report_timeout_batch (encuestas : List Encuesta) (envs : Nat → ReportEnv)
    (order : List Nat) (j : Nat) (ej : Encuesta)
    (horder : order.Perm (List.range encuestas.length))
    (hj : encuestas.get? j = some ej)
    (hpost : (envs j).post = Step.ok 200) (hpb : (envs j).postBody = Step.ok ())
    (hpoll : ∀ k, k < 120 → pollOkNotCompleted ((envs j).poll k) = true)
    (hothers : ∀ i, i < encuestas.length → i ≠ j → jobErr encuestas envs i = none) :
    pollReport ((envs j).poll) = PollOutcome.timeout 120 240 ∧
      jobResult envs j ej = (none, some (timeoutMsg ej.title)) ∧
      (generar_reportes_en_paralelo encuestas envs order).2 = [timeoutMsg ej.title] ∧
      (generar_reportes_en_paralelo encuestas envs order).1 =
        successesInOrder encuestas envs := by
  have h1 := pollReport_timeout _ hpoll
  have h2 : jobResult envs j ej = (none, some (timeoutMsg ej.title)) :=
    generate_report_timeout _ _ _ hpost hpb hpoll
  have hothers' : ∀ i e, i ≠ j → encuestas.get? i = some e →
      (jobResult envs i e).2 = none := by
    intro i e hij hg
    have hilt : i < encuestas.length := (List.get?_eq_some.mp hg).1
    have hoth := hothers i hilt hij
    unfold jobErr at hoth
    rw [hg] at hoth
    simpa using hoth
  refine ⟨h1, h2, ?_, generar_fst_eq encuestas envs order horder⟩
  refine generar_snd_single encuestas envs order j ej (timeoutMsg ej.title)
    horder hj ?_ ?_ hothers'
  · rw [h2]
  · exact beq_eq_false_iff_ne.mpr (tagMsg_ne_empty _ _)

/-- Witness for C4: two submissions, the first timing out, completing
second-then-first: one timeout message tagged with the first survey's
title, the second survey's result intact. -/
theorem generate_report_timeout_batch_witness :
    (generar_reportes_en_paralelo encuestasT envsT [1, 0]).2 =
        [timeoutMsg ("Encuesta A")] ∧
      (generar_reportes_en_paralelo encuestasT envsT [1, 0]).1 =
        successesInOrder encuestasT envsT ∧
      successesInOrder encuestasT envsT = [addTagCols dfCsvB ("102") ("Encuesta B")] :=
  ⟨(generate_report_timeout_batch encuestasT envsT [1, 0] 0
      { course_id := "101", id := 11, title := "Encuesta A" }
      (by decide) (by decide) (by decide) (by decide) (by decide) (by decide)).2.2.1,
   (generate_report_timeout_batch encuestasT envsT [1, 0] 0
      { course_id := "101", id := 11, title := "Encuesta A" }
      (by decide) (by decide) (by decide) (by decide) (by decide) (by decide)).2.2.2,
   by decide⟩
